import Mathlib

/-!
Shallow embedding of the translation core of the natural-language-to-bash CLI:
the functions `format_query` and `translate_to_bash` of `api.py` and
`format_command` of `formatter.py`.

Modelling conventions:
* Python exceptions are values of `PyExc`; the class hierarchy declared in the
  source (`TranslationError(Exception)`, `APIAuthenticationError(TranslationError)`,
  `APIRateLimitError(TranslationError)`) is the function `parentClass`.
* The module-global `API_KEY = os.environ.get(..)` is passed explicitly as an
  `Option String` (`none` models an absent environment variable).
* The HTTP client (`requests.post`) is an explicit `NetOutcome` input: either a
  response value or one of the transport exceptions the source catches.
* JSON bodies (`response.json()`) are values of the inductive `JVal`.
* Python string primitives (`strip`, `split`, `in`, `startswith`, truthiness)
  are re-implemented structurally on `String.data` so that every definition
  evaluates by kernel reduction.  `Char.isWhitespace` stands in for Python
  whitespace (identical on ASCII space, tab, CR, LF).
-/

/-- Python exception classes occurring in the program, plus their common
ancestor `Exception`.  `valueError` and `attributeError` are builtins. -/
inductive ExcClass
  | exception
  | valueError
  | attributeError
  | translationError
  | apiAuthenticationError
  | apiRateLimitError
deriving DecidableEq

/-- Direct base class of each exception class, read off the `class C(B):`
declarations in `api.py` and the Python builtin hierarchy (collapsing the
builtin chain above `ValueError` and `AttributeError` to `Exception`). -/
def parentClass : ExcClass → Option ExcClass
  | .exception => none
  | .valueError => some .exception
  | .attributeError => some .exception
  | .translationError => some .exception
  | .apiAuthenticationError => some .translationError
  | .apiRateLimitError => some .translationError

/-- Ancestor chain of a class, computed with fuel (the hierarchy has depth
at most 2, so any fuel of 10 is enough). -/
def ancestorsFrom : Nat → ExcClass → List ExcClass
  | 0, c => [c]
  | n + 1, c =>
    c :: (match parentClass c with
          | some p => ancestorsFrom n p
          | none => [])

/-- Python `issubclass c d` (reflexive, as in Python). -/
def isSubclassOf (c d : ExcClass) : Bool :=
  (ancestorsFrom 10 c).contains d

/-- A raised Python exception value: its class together with its message
(`str(e)`; every exception in this program is constructed with exactly one
string argument, for which `str(e)` returns that string). -/
inductive PyExc
  | valueError (msg : String)
  | attributeError (msg : String)
  | translationError (msg : String)
  | apiAuthenticationError (msg : String)
  | apiRateLimitError (msg : String)
deriving DecidableEq

/-- The class of a raised exception. -/
def PyExc.cls : PyExc → ExcClass
  | .valueError _ => .valueError
  | .attributeError _ => .attributeError
  | .translationError _ => .translationError
  | .apiAuthenticationError _ => .apiAuthenticationError
  | .apiRateLimitError _ => .apiRateLimitError

/-- The message of a raised exception (`str(e)`). -/
def PyExc.msg : PyExc → String
  | .valueError m => m
  | .attributeError m => m
  | .translationError m => m
  | .apiAuthenticationError m => m
  | .apiRateLimitError m => m

/-- Split a character list at the first occurrence of `pat`: `some (b, a)`
with `hay = b ++ pat ++ a` when `pat` occurs, `none` otherwise.  This is the
one string-search primitive; Python `pat in s` is `Option.isSome` of it and
`s.split(pat, 1)[1]` is the second component. -/
def splitFirst (pat : List Char) : List Char → Option (List Char × List Char)
  | [] => if pat.isPrefixOf ([] : List Char) then some ([], []) else none
  | c :: t =>
    if pat.isPrefixOf (c :: t) then some ([], (c :: t).drop pat.length)
    else
      match splitFirst pat t with
      | some (b, a) => some (c :: b, a)
      | none => none

/-- Python `pat in s` (substring containment). -/
def strContains (s pat : String) : Bool :=
  (splitFirst pat.data s.data).isSome

/-- Python `s.split(pat, 1)[1]`: everything after the first occurrence of
`pat`.  Only used after an `in` check, so the `none` fallback is unreachable
in the program. -/
def afterFirst (s pat : String) : String :=
  match splitFirst pat.data s.data with
  | some (_, a) => String.mk a
  | none => s

/-- Python `s.strip()`: drop whitespace from both ends. -/
def pyStrip (s : String) : String :=
  String.mk (((s.data.dropWhile Char.isWhitespace).reverse.dropWhile Char.isWhitespace).reverse)

/-- Python `not s` for a string `s`: truthiness (empty is falsy). -/
def pyStrFalsy (s : String) : Bool :=
  s.data.isEmpty

/-- Python `not v` for the module-global `API_KEY : Optional[str]`:
`None` and the empty string are falsy. -/
def optStrFalsy : Option String → Bool
  | none => true
  | some s => pyStrFalsy s

/-- Helper for `pySplitWs`: scan the characters, accumulating the current
token in reverse; whitespace flushes the token (empty tokens dropped). -/
def pySplitWsAux : List Char → List Char → List String
  | [], acc => if acc.isEmpty then [] else [String.mk acc.reverse]
  | c :: t, acc =>
    if c.isWhitespace then
      (if acc.isEmpty then [] else [String.mk acc.reverse]) ++ pySplitWsAux t []
    else
      pySplitWsAux t (c :: acc)

/-- Python `s.split()` with no argument: split on whitespace runs, dropping
empty fields. -/
def pySplitWs (s : String) : List String :=
  pySplitWsAux s.data []

/-- Python `s.startswith(pre)`. -/
def pyStartswith (s pre : String) : Bool :=
  pre.data.isPrefixOf s.data

/-- The `dangerous_patterns` list of `translate_to_bash`. -/
def dangerous_patterns : List String :=
  ["rm -rf /", "rm -rf /*", "> /dev/sda"]

/-- Python `any(pattern in command for pattern in dangerous_patterns)`. -/
def dangerous (command : String) : Bool :=
  dangerous_patterns.any (fun pattern => strContains command pattern)

/-- JSON-like Python values, the possible results of `response.json()`. -/
inductive JVal
  | str (s : String)
  | num (n : Int)
  | bool (b : Bool)
  | null
  | arr (xs : List JVal)
  | obj (fields : List (String × JVal))

/-- Python truthiness of a JSON value (`if not v`). -/
def JVal.truthy : JVal → Bool
  | .str s => !s.data.isEmpty
  | .num n => n != 0
  | .bool b => b
  | .null => false
  | .arr xs => !xs.isEmpty
  | .obj fs => !fs.isEmpty

/-- Python `isinstance(v, dict)`. -/
def JVal.isObj : JVal → Bool
  | .obj _ => true
  | _ => false

/-- Python `isinstance(v, list)`. -/
def JVal.isArr : JVal → Bool
  | .arr _ => true
  | _ => false

/-- Python `d.get(key, default)` on an object; every use in the program is
guarded by an `isinstance(_, dict)` check, so the non-object fallback is
unreachable. -/
def JVal.getField : JVal → String → JVal → JVal
  | .obj fs, key, dflt => (fs.lookup key).getD dflt
  | _, _, dflt => dflt

/-- Python `xs[0]`; used only after the code has checked the value is a
truthy (hence non-empty) list, so the `.null` fallback is unreachable. -/
def JVal.first : JVal → JVal
  | .arr (x :: _) => x
  | _ => .null

/-- Python `type(v).__name__` for the modelled value shapes. -/
def JVal.pyTypeName : JVal → String
  | .str _ => "str"
  | .num _ => "int"
  | .bool _ => "bool"
  | .null => "NoneType"
  | .arr _ => "list"
  | .obj _ => "dict"

mutual

/-- Python `str(v)`/`repr(v)` of a parsed JSON value, used in the
missing-choices error message (`f"... Response: \x7bresult\x7d"`).  String
escaping inside `repr` is not modelled (no special characters occur in any
input this development evaluates it on). -/
def JVal.pyRepr : JVal → String
  | .str s => "\x27" ++ s ++ "\x27"
  | .num n => toString n
  | .bool true => "True"
  | .bool false => "False"
  | .null => "None"
  | .arr xs => "[" ++ pyReprItems xs ++ "]"
  | .obj fs => "\x7b" ++ pyReprFields fs ++ "\x7d"

/-- Comma-separated `repr`s of list items. -/
def pyReprItems : List JVal → String
  | [] => ""
  | [x] => JVal.pyRepr x
  | x :: y :: xs => JVal.pyRepr x ++ ", " ++ pyReprItems (y :: xs)

/-- Comma-separated `repr`s of dict entries. -/
def pyReprFields : List (String × JVal) → String
  | [] => ""
  | [(k, v)] => "\x27" ++ k ++ "\x27: " ++ JVal.pyRepr v
  | (k, v) :: f :: fs => "\x27" ++ k ++ "\x27: " ++ JVal.pyRepr v ++ ", " ++ pyReprFields (f :: fs)

end

/-- Result of `response.json()`: either a parse failure (Python raises
`ValueError` with message `m`) or the parsed value. -/
inductive BodyParse
  | malformed (m : String)
  | parsed (v : JVal)

/-- The parts of a `requests` response object that the program reads:
`status_code`, `headers.get("content-type", "")`, and `json()`. -/
structure HttpResponse where
  status : Nat
  contentType : String
  body : BodyParse

/-- Outcome of the `requests.post` call, making the transport effects of the
HTTP client explicit: a response, or one of the exception classes the source
catches (`requests.exceptions.Timeout`, `ConnectionError`, and any other
`RequestException`, which carries its `str`). -/
inductive NetOutcome
  | success (resp : HttpResponse)
  | timeout
  | connectionError
  | requestException (m : String)

/-- The text of the `format_query` f-string template before the `{query}`
slot. -/
def promptBefore : String :=
  "You are an expert Linux command line interface specialist. Your task is to translate the following natural language query into a precise bash command.\n\nRULES:\n1. Return ONLY the bash command without any explanations or additional text\n2. The command must be prefixed with \x27command:\x27 (e.g., \x27command: ls -la\x27)\n3. Focus on safety and best practices:\n   - Add safeguards for destructive operations\n   - Use appropriate flags for better usability\n   - Prefer modern command alternatives when available\n4. Keep commands concise but functional\n5. Do not include sudo unless explicitly requested\n\nUSER QUERY:\n"

/-- The text of the `format_query` f-string template after the `{query}`
slot. -/
def promptAfter : String :=
  "\n\nRESPONSE FORMAT:\ncommand: <the_command_here>"

/-- `format_query` of `api.py`: render the fixed template with the query in
its slot. -/
def format_query (query : String) : String :=
  promptBefore ++ query ++ promptAfter

/-- The request body built inside `translate_to_bash` (the `payload` dict).
The numeric generation parameters are rationals (`0.1`, `0.9` are exact in
the source text). -/
structure Payload where
  model : String
  systemContent : String
  userContent : String
  temperature : Rat
  max_tokens : Nat
  top_p : Rat
  presence_penalty : Rat
deriving DecidableEq

/-- Construction of the `payload` dict in `translate_to_bash`: a pure
function of the query. -/
def buildPayload (query : String) : Payload :=
  { model := "llama-3.1-sonar-small-128k-chat"
    systemContent := "You are a Linux command-line expert that translates natural language to bash commands."
    userContent := format_query query
    temperature := 1/10
    max_tokens := 150
    top_p := 9/10
    presence_penalty := 1/10 }

/-- The static `status_errors` table in `translate_to_bash`. -/
def status_errors : Nat → Option String
  | 400 => some "Bad request: Please check your query format"
  | 401 => some "Invalid API key or unauthorized access"
  | 403 => some "Access forbidden: Please check your API key permissions"
  | 404 => some "API endpoint not found: Please check the API URL"
  | 429 => some "API rate limit exceeded: Please try again later"
  | 500 => some "Internal server error: Please try again later"
  | 503 => some "Service unavailable: The API is temporarily down"
  | _ => none

/-- `status_errors.get(code, f"API request failed with status code: \x7bcode\x7d")`. -/
def statusErrorMsg (code : Nat) : String :=
  (status_errors code).getD ("API request failed with status code: " ++ toString code)

/-- The marker-extraction step of `translate_to_bash`: take everything after
the first `command:` if present, else the whole (already stripped) content,
stripped again. -/
def extractCommand (content : String) : String :=
  if strContains content "command:" then pyStrip (afterFirst content "command:")
  else pyStrip content

/-- The command-validation tail of `translate_to_bash`: emptiness, length
and deny-list checks on the extracted command. -/
def validateCommand (content : String) : Except PyExc String :=
  let command := extractCommand content
  if pyStrFalsy command then
    .error (.translationError "Empty command received from API")
  else if (pySplitWs command).length > 50 then
    .error (.translationError "Generated command is suspiciously long")
  else if dangerous command then
    .error (.translationError "Generated command contains potentially dangerous operations")
  else
    .ok command

/-- The `content` value a parsed body yields:
`result.get("choices", [])[0].get("message", \x7b\x7d).get("content", "")`. -/
def contentOf (result : JVal) : JVal :=
  ((result.getField "choices" (.arr [])).first.getField "message" (.obj [])).getField "content" (.str "")

/-- The structural-validation and extraction section of `translate_to_bash`,
operating on the parsed JSON body.  A non-string `content` value makes the
source call `.strip()` on it, raising `AttributeError`. -/
def validateBody (result : JVal) : Except PyExc String :=
  if !result.isObj then
    .error (.translationError "Invalid API response: expected JSON object")
  else
    let choices := result.getField "choices" (.arr [])
    if !choices.truthy || !choices.isArr then
      .error (.translationError ("Invalid API response: missing or invalid \x27choices\x27 field. Response: " ++ result.pyRepr))
    else
      let choice := choices.first
      if !choice.isObj then
        .error (.translationError "Invalid API response: first choice is not an object")
      else
        let message := choice.getField "message" (.obj [])
        if !message.isObj then
          .error (.translationError "Invalid API response: message is not an object")
        else
          match contentOf result with
          | .str rawContent =>
            let content := pyStrip rawContent
            if pyStrFalsy content then
              .error (.translationError "Empty response received from API")
            else
              validateCommand content
          | other =>
            .error (.attributeError ("\x27" ++ other.pyTypeName ++ "\x27 object has no attribute \x27strip\x27"))

/-- The response-handling part of `translate_to_bash`'s `try` block: status
classification, content-type check, JSON parse (the inner
`try`/`except ValueError`, which can only fire for the `response.json()`
call, since the validation code raises only `TranslationError` and
`AttributeError`) and body validation. -/
def processResponse (resp : HttpResponse) : Except PyExc String :=
  if resp.status ≠ 200 then
    let errorMessage := statusErrorMsg resp.status
    if resp.status = 401 then
      .error (.apiAuthenticationError errorMessage)
    else if resp.status = 429 then
      .error (.apiRateLimitError errorMessage)
    else
      .error (.translationError errorMessage)
  else if !pyStartswith resp.contentType "application/json" then
    .error (.translationError "Invalid response format: expected JSON")
  else
    match resp.body with
    | .malformed m =>
      .error (.translationError ("Invalid JSON response from API: " ++ m))
    | .parsed result => validateBody result

/-- `translate_to_bash` as observed by the caller.  The two precondition
checks come before the `try` block; the trailing `except` clauses are the
final `match`: the three transport handlers produce base `TranslationError`s
with fixed messages, and every exception raised inside the `try` block (all
are `Exception` instances, none a `requests` exception) falls to the blanket
`except Exception` handler, which re-raises it as a base `TranslationError`
with the original message prefixed by "Translation failed: ". -/
def translate_to_bash (apiKey : Option String) (query : String) (net : NetOutcome) : Except PyExc String :=
  if pyStrFalsy (pyStrip query) then
    .error (.valueError "Query must be a non-empty string")
  else if optStrFalsy apiKey then
    .error (.apiAuthenticationError "API key not found. Please set the PREPLIXITY_API_KEY environment variable.")
  else
    match net with
    | .timeout => .error (.translationError "API request timed out")
    | .connectionError => .error (.translationError "Could not connect to the API server")
    | .requestException m => .error (.translationError ("API request failed: " ++ m))
    | .success resp =>
      match processResponse resp with
      | .ok command => .ok command
      | .error e => .error (.translationError ("Translation failed: " ++ e.msg))

/-- Whether the `requests.post` call is reached for a given key and query:
true iff both precondition checks before it pass. -/
def networkCalled (apiKey : Option String) (query : String) : Bool :=
  !pyStrFalsy (pyStrip query) && !optStrFalsy apiKey

/-- `format_command` of `formatter.py`; its `raise ValueError` is modelled
as `Except.error`. -/
def format_command (command : String) : Except PyExc String :=
  let command := pyStrip command
  if strContains command "rm -rf /" || strContains command "rm -rf /*" then
    .error (.valueError "Potentially dangerous command detected")
  else
    .ok command

/-- The exception class the caller observes, if any. -/
def raisedClass : Except PyExc String → Option ExcClass
  | .ok _ => none
  | .error e => some e.cls

/-- A 200 JSON response whose extracted command hits the deny-list. -/
def denyResp : HttpResponse :=
  { status := 200, contentType := "application/json",
    body := .parsed (.obj [("choices", .arr [.obj [("message", .obj [("content", .str "command: rm -rf /")])]])]) }

/-- A 200 JSON response whose extracted command has 51 whitespace-separated
tokens. -/
def longResp : HttpResponse :=
  { status := 200, contentType := "application/json",
    body := .parsed (.obj [("choices", .arr [.obj [("message", .obj [("content", .str "command: w w w w w w w w w w w w w w w w w w w w w w w w w w w w w w w w w w w w w w w w w w w w w w w w w w w")])]])]) }

/-- The synthetic OpenAI-style chat-completion body
`\x7b"choices": [\x7b"message": \x7b"content": "command: ls -la"\x7d\x7d]\x7d`. -/
def synthBody : JVal :=
  .obj [("choices", .arr [.obj [("message", .obj [("content", .str "command: ls -la")])]])]

/-- A 200 JSON response carrying `synthBody`. -/
def synthResp : HttpResponse :=
  { status := 200, contentType := "application/json", body := .parsed synthBody }

/-- If an extended pattern is a prefix of a list, so is the original
pattern. -/
theorem isPrefixOf_append_imp {α : Type} [BEq α] :
    ∀ (p q l : List α), (p ++ q).isPrefixOf l = true → p.isPrefixOf l = true
  | [], _, l, _ => by cases l <;> rfl
  | a :: p, q, [], h => by simp [List.isPrefixOf] at h
  | a :: p, q, b :: l, h => by
    simp only [List.cons_append, List.isPrefixOf, Bool.and_eq_true] at h ⊢
    exact ⟨h.1, isPrefixOf_append_imp p q l h.2⟩

/-- If an extended pattern occurs in a list, so does the original pattern. -/
theorem splitFirst_extend :
    ∀ (hay p q : List Char), (splitFirst (p ++ q) hay).isSome = true →
      (splitFirst p hay).isSome = true
  | [], p, q, h => by
    simp only [splitFirst] at h ⊢
    split at h
    · rw [if_pos (isPrefixOf_append_imp p q [] (by assumption))]
      rfl
    · simp at h
  | c :: t, p, q, h => by
    simp only [splitFirst] at h ⊢
    split at h
    · rw [if_pos (isPrefixOf_append_imp p q (c :: t) (by assumption))]
      rfl
    · by_cases hp : p.isPrefixOf (c :: t) = true
      · rw [if_pos hp]
        rfl
      · rw [if_neg hp]
        have ht : (splitFirst (p ++ q) t).isSome = true := by
          rcases hsp : splitFirst (p ++ q) t with _ | ⟨b, a⟩
          · simp only [hsp] at h
            simp at h
          · rfl
        have hs := splitFirst_extend t p q ht
        rcases hsp2 : splitFirst p t with _ | ⟨b, a⟩
        · rw [hsp2] at hs
          simp at hs
        · rfl

/-- A string with no characters contains none of the deny-list patterns. -/
theorem dangerous_of_falsy (s : String) (h : pyStrFalsy s = true) :
    dangerous s = false := by
  have hd : s.data = [] := by
    simpa [pyStrFalsy, List.isEmpty_iff] using h
  simp only [dangerous, dangerous_patterns, strContains, hd]
  decide

/-- A string with no characters splits into no whitespace tokens. -/
theorem pySplitWs_of_falsy (s : String) (h : pyStrFalsy s = true) :
    pySplitWs s = [] := by
  have hd : s.data = [] := by
    simpa [pyStrFalsy, List.isEmpty_iff] using h
  simp [pySplitWs, hd, pySplitWsAux]

/-- Inversion of the command-validation tail: a returned command is the
extracted command and passed the emptiness, length and deny-list checks. -/
theorem validateCommand_ok_shape (content cmd : String)
    (h : validateCommand content = .ok cmd) :
    cmd = extractCommand content ∧ pyStrFalsy cmd = false ∧
      (pySplitWs cmd).length ≤ 50 ∧ dangerous cmd = false := by
  simp only [validateCommand] at h
  split at h
  · simp at h
  · split at h
    · simp at h
    · split at h
      · simp at h
      · have hc : extractCommand content = cmd := by simpa using h
        subst hc
        refine ⟨rfl, ?_, ?_, ?_⟩
        · simp_all
        · omega
        · simp_all

/-- Inversion of the body-validation section: a returned command comes from
a string `content` field via marker extraction and passed all checks. -/
theorem validateBody_ok_shape (result : JVal) (cmd : String)
    (h : validateBody result = .ok cmd) :
    ∃ raw, contentOf result = .str raw ∧ cmd = extractCommand (pyStrip raw) ∧
      pyStrFalsy cmd = false ∧ (pySplitWs cmd).length ≤ 50 ∧
      dangerous cmd = false := by
  simp only [validateBody] at h
  split at h
  · simp at h
  · split at h
    · simp at h
    · split at h
      · simp at h
      · split at h
        · simp at h
        · split at h
          next rawContent heq =>
            split at h
            · simp at h
            · exact ⟨rawContent, heq, validateCommand_ok_shape _ _ h⟩
          next other heq _ => simp at h

/-- Inversion of the response handler: a returned command comes from a
parsed body that passed validation. -/
theorem processResponse_ok_body (resp : HttpResponse) (cmd : String)
    (h : processResponse resp = .ok cmd) :
    ∃ result, resp.body = .parsed result ∧ validateBody result = .ok cmd := by
  simp only [processResponse] at h
  split at h
  · split at h
    · simp at h
    · split at h
      · simp at h
      · simp at h
  · split at h
    · simp at h
    · split at h
      next m heq => simp at h
      next result heq => exact ⟨result, heq, h⟩

/-- Inversion of the full call: a returned command comes from a successful
network call whose response passed the handler. -/
theorem translate_ok_net (k : Option String) (q : String) (net : NetOutcome)
    (cmd : String) (h : translate_to_bash k q net = .ok cmd) :
    ∃ resp, net = .success resp ∧ processResponse resp = .ok cmd := by
  simp only [translate_to_bash] at h
  split at h
  · simp at h
  · split at h
    · simp at h
    · cases net with
      | success resp =>
        refine ⟨resp, rfl, ?_⟩
        rcases hpr : processResponse resp with e | c
        · simp only [hpr] at h
          simp at h
        · simp only [hpr] at h
          exact h
      | timeout => simp at h
      | connectionError => simp at h
      | requestException m => simp at h

/-- Claim C2: marker extraction.  A command returned from any response body
whose first choice content is the string `raw` equals the marker extraction
of the stripped content; `extractCommand` takes everything after the first
"command:" (stripped) when the marker occurs and the whole (already
stripped) content otherwise; and on the synthetic 200 JSON response whose
content is "command: ls -la" the full call returns exactly "ls -la". -/
theorem claim_C2_marker_extraction :
    (∀ (result : JVal) (cmd raw : String), validateBody result = .ok cmd →
      contentOf result = .str raw → cmd = extractCommand (pyStrip raw)) ∧
    (∀ content : String, strContains content "command:" = true →
      extractCommand content = pyStrip (afterFirst content "command:")) ∧
    (∀ content : String, strContains content "command:" = false →
      extractCommand content = pyStrip content) ∧
    translate_to_bash (some "k") "show all files" (.success synthResp) = .ok "ls -la" := by
  refine ⟨?_, ?_, ?_, rfl⟩
  · intro result cmd raw hok hraw
    obtain ⟨raw2, hraw2, hcmd, _⟩ := validateBody_ok_shape result cmd hok
    rw [hraw] at hraw2
    injection hraw2 with h2
    subst h2
    exact hcmd
  · intro content h
    simp [extractCommand, h]
  · intro content h
    simp [extractCommand, h]

/-- Witness for claim C2 at the synthetic body. -/
theorem claim_C2_witness :
    "ls -la" = extractCommand (pyStrip "command: ls -la") :=
  claim_C2_marker_extraction.1 synthBody "ls -la" "command: ls -la" (by rfl) (by rfl)

/-- Claim C6: deny-list rejection.  A command returned by the full call
never contains a deny-list substring; whenever the extracted command does,
the command-validation tail raises a TranslationError; and on a response
whose content is "command: rm -rf /" the full call raises the (re-wrapped)
TranslationError. -/
theorem claim_C6_deny_list :
    (∀ (key : Option String) (q : String) (net : NetOutcome) (cmd : String),
      translate_to_bash key q net = .ok cmd → dangerous cmd = false) ∧
    (∀ content : String, dangerous (extractCommand content) = true →
      ∃ m, validateCommand content = .error (.translationError m)) ∧
    translate_to_bash (some "k") "wipe everything" (.success denyResp) =
      .error (.translationError "Translation failed: Generated command contains potentially dangerous operations") := by
  refine ⟨?_, ?_, rfl⟩
  · intro key q net cmd h
    obtain ⟨resp, _, hpr⟩ := translate_ok_net key q net cmd h
    obtain ⟨result, _, hvb⟩ := processResponse_ok_body resp cmd hpr
    obtain ⟨raw, _, _, _, _, hd⟩ := validateBody_ok_shape result cmd hvb
    exact hd
  · intro content hd
    have hne : pyStrFalsy (extractCommand content) = false := by
      cases hb : pyStrFalsy (extractCommand content)
      · rfl
      · rw [dangerous_of_falsy _ hb] at hd
        cases hd
    by_cases hl : (pySplitWs (extractCommand content)).length > 50
    · exact ⟨"Generated command is suspiciously long", by simp [validateCommand, hne, hl]⟩
    · exact ⟨"Generated command contains potentially dangerous operations",
        by simp [validateCommand, hne, hl, hd]⟩

/-- Witness for claim C6 at a successful call. -/
theorem claim_C6_witness : dangerous "ls -la" = false :=
  claim_C6_deny_list.1 (some "k") "show all files" (.success synthResp) "ls -la" (by rfl)

/-- Claim C7: length ceiling.  A command returned by the full call has at
most 50 whitespace-separated tokens; whenever the extracted command has more
than 50, the command-validation tail raises the "suspiciously long"
TranslationError; and on a response whose content has 51 tokens after the
marker the full call raises the (re-wrapped) TranslationError. -/
theorem claim_C7_length_ceiling :
    (∀ (key : Option String) (q : String) (net : NetOutcome) (cmd : String),
      translate_to_bash key q net = .ok cmd → (pySplitWs cmd).length ≤ 50) ∧
    (∀ content : String, (pySplitWs (extractCommand content)).length > 50 →
      validateCommand content = .error (.translationError "Generated command is suspiciously long")) ∧
    translate_to_bash (some "k") "emit many words" (.success longResp) =
      .error (.translationError "Translation failed: Generated command is suspiciously long") := by
  refine ⟨?_, ?_, rfl⟩
  · intro key q net cmd h
    obtain ⟨resp, _, hpr⟩ := translate_ok_net key q net cmd h
    obtain ⟨result, _, hvb⟩ := processResponse_ok_body resp cmd hpr
    obtain ⟨raw, _, _, _, hlen, _⟩ := validateBody_ok_shape result cmd hvb
    exact hlen
  · intro content hl
    have hne : pyStrFalsy (extractCommand content) = false := by
      cases hb : pyStrFalsy (extractCommand content)
      · rfl
      · rw [pySplitWs_of_falsy _ hb] at hl
        simp at hl
    simp [validateCommand, hne, hl]

/-- Witness for claim C7 at a successful call. -/
theorem claim_C7_witness : (pySplitWs "ls -la").length ≤ 50 :=
  claim_C7_length_ceiling.1 (some "k") "show all files" (.success synthResp) "ls -la" (by rfl)

/-- Claim C8: request building.  For every non-empty query the built
payload's rendered prompt contains the query verbatim, and the generation
parameters are the fixed values of the source; `buildPayload` is a plain
function of the query, so purity and determinism hold by construction. -/
theorem claim_C8_request_building (q : String) (h : pyStrFalsy (pyStrip q) = false) :
    (∃ a b, (buildPayload q).userContent = a ++ q ++ b) ∧
    (buildPayload q).model = "llama-3.1-sonar-small-128k-chat" ∧
    (buildPayload q).temperature = 1/10 ∧
    (buildPayload q).max_tokens = 150 ∧
    (buildPayload q).top_p = 9/10 ∧
    (buildPayload q).presence_penalty = 1/10 :=
  ⟨⟨promptBefore, promptAfter, rfl⟩, rfl, rfl, rfl, rfl, rfl⟩

/-- Witness for claim C8 at a concrete query. -/
theorem claim_C8_witness :
    (∃ a b, (buildPayload "list files").userContent = a ++ "list files" ++ b) ∧
    (buildPayload "list files").model = "llama-3.1-sonar-small-128k-chat" ∧
    (buildPayload "list files").temperature = 1/10 ∧
    (buildPayload "list files").max_tokens = 150 ∧
    (buildPayload "list files").top_p = 9/10 ∧
    (buildPayload "list files").presence_penalty = 1/10 :=
  claim_C8_request_building "list files" (by decide)

/-- Claim C9: error re-wrapping.  With a valid key and query, every error the
response handler produces reaches the caller as a base TranslationError with
the original message prefixed by "Translation failed: "; the caller never
observes the APIAuthenticationError or APIRateLimitError subtypes for any
network outcome; and the missing-key precondition (checked before the `try`
block) is the only path on which APIAuthenticationError escapes. -/
theorem claim_C9_error_rewrapping :
    (∀ (key : Option String) (q : String), optStrFalsy key = false →
      pyStrFalsy (pyStrip q) = false →
      (∀ (resp : HttpResponse) (e : PyExc), processResponse resp = .error e →
        translate_to_bash key q (.success resp) =
          .error (.translationError ("Translation failed: " ++ e.msg))) ∧
      (∀ net : NetOutcome,
        raisedClass (translate_to_bash key q net) ≠ some .apiAuthenticationError ∧
        raisedClass (translate_to_bash key q net) ≠ some .apiRateLimitError)) ∧
    (∀ (q : String) (net : NetOutcome), pyStrFalsy (pyStrip q) = false →
      translate_to_bash none q net =
        .error (.apiAuthenticationError "API key not found. Please set the PREPLIXITY_API_KEY environment variable.")) := by
  constructor
  · intro key q hk hq
    constructor
    · intro resp e hpr
      simp [translate_to_bash, hq, hk, hpr]
    · intro net
      cases net with
      | success resp =>
        rcases hpr : processResponse resp with e | c <;>
          simp [translate_to_bash, hq, hk, hpr, raisedClass, PyExc.cls]
      | timeout => simp [translate_to_bash, hq, hk, raisedClass, PyExc.cls]
      | connectionError => simp [translate_to_bash, hq, hk, raisedClass, PyExc.cls]
      | requestException m => simp [translate_to_bash, hq, hk, raisedClass, PyExc.cls]
  · intro q net hq
    simp [translate_to_bash, hq, optStrFalsy]

/-- Witness for claim C9: a 401 response reaches the caller re-wrapped as a
base TranslationError. -/
theorem claim_C9_witness :
    translate_to_bash (some "k") "show all files"
        (.success { status := 401, contentType := "", body := .parsed (.obj []) }) =
      .error (.translationError "Translation failed: Invalid API key or unauthorized access") :=
  (claim_C9_error_rewrapping.1 (some "k") "show all files" (by decide) (by decide)).1
    { status := 401, contentType := "", body := .parsed (.obj []) }
    (.apiAuthenticationError "Invalid API key or unauthorized access") (by rfl)

/-- Claim C1 counterexample: at HTTP status 403 the caller observes a base
TranslationError (built from the static table message), not an AuthError —
and even at 401 the class the caller observes is the base TranslationError,
because the blanket handler re-wraps it. -/
theorem claim_C1_counterexample :
    translate_to_bash (some "k") "x"
        (.success { status := 403, contentType := "application/json", body := .parsed (.obj []) }) =
      .error (.translationError "Translation failed: Access forbidden: Please check your API key permissions") ∧
    raisedClass (translate_to_bash (some "k") "x"
        (.success { status := 403, contentType := "application/json", body := .parsed (.obj []) })) =
      some .translationError ∧
    raisedClass (translate_to_bash (some "k") "x"
        (.success { status := 401, contentType := "application/json", body := .parsed (.obj []) })) =
      some .translationError :=
  ⟨rfl, rfl, rfl⟩

/-- Claim C1 as amended: for every response whose status is not 200, the
status is mapped to the static-table message (generic fallback naming the
code) before the body is consulted (the result is the same for every body
and content type); internally 401 raises APIAuthenticationError and 429
APIRateLimitError while 403 and all other non-200 codes raise the base
TranslationError; and the caller always observes a base TranslationError
whose message is the table message prefixed by "Translation failed: ". -/
theorem claim_C1_status_classification (key : Option String) (q : String)
    (s : Nat) (ct : String) (b : BodyParse)
    (hk : optStrFalsy key = false) (hq : pyStrFalsy (pyStrip q) = false)
    (hs : s ≠ 200) :
    processResponse { status := 401, contentType := ct, body := b } =
      .error (.apiAuthenticationError (statusErrorMsg 401)) ∧
    processResponse { status := 429, contentType := ct, body := b } =
      .error (.apiRateLimitError (statusErrorMsg 429)) ∧
    processResponse { status := 403, contentType := ct, body := b } =
      .error (.translationError (statusErrorMsg 403)) ∧
    translate_to_bash key q (.success { status := s, contentType := ct, body := b }) =
      .error (.translationError ("Translation failed: " ++ statusErrorMsg s)) := by
  refine ⟨rfl, rfl, rfl, ?_⟩
  by_cases h1 : s = 401
  · subst h1
    simp [translate_to_bash, hq, hk, processResponse, PyExc.msg]
  · by_cases h2 : s = 429
    · subst h2
      simp [translate_to_bash, hq, hk, processResponse, PyExc.msg]
    · simp [translate_to_bash, hq, hk, processResponse, hs, h1, h2, PyExc.msg]

/-- Witness for claim C1 as amended, at status 503. -/
theorem claim_C1_witness :
    processResponse { status := 401, contentType := "application/json", body := .parsed (.obj []) } =
      .error (.apiAuthenticationError "Invalid API key or unauthorized access") ∧
    processResponse { status := 429, contentType := "application/json", body := .parsed (.obj []) } =
      .error (.apiRateLimitError "API rate limit exceeded: Please try again later") ∧
    processResponse { status := 403, contentType := "application/json", body := .parsed (.obj []) } =
      .error (.translationError "Access forbidden: Please check your API key permissions") ∧
    translate_to_bash (some "k") "list files"
        (.success { status := 503, contentType := "application/json", body := .parsed (.obj []) }) =
      .error (.translationError "Translation failed: Service unavailable: The API is temporarily down") :=
  claim_C1_status_classification (some "k") "list files" 503 "application/json"
    (.parsed (.obj [])) (by decide) (by decide) (by decide)

/-- Claim C3 counterexample: with the key absent, the empty query raises
ValueError (the input check runs first), not AuthError, so "for every query"
fails. -/
theorem claim_C3_counterexample :
    translate_to_bash none "" .timeout = .error (.valueError "Query must be a non-empty string") ∧
    raisedClass (translate_to_bash none "" .timeout) = some .valueError :=
  ⟨rfl, rfl⟩

/-- Claim C3 as amended: whenever the key is absent or empty, every query
that passes input validation (non-empty after stripping) raises
APIAuthenticationError for every network outcome, and the network call is
never reached. -/
theorem claim_C3_missing_credential (key : Option String) (q : String)
    (net : NetOutcome) (hk : optStrFalsy key = true)
    (hq : pyStrFalsy (pyStrip q) = false) :
    translate_to_bash key q net =
      .error (.apiAuthenticationError "API key not found. Please set the PREPLIXITY_API_KEY environment variable.") ∧
    networkCalled key q = false := by
  constructor
  · simp [translate_to_bash, hq, hk]
  · simp [networkCalled, hk]

/-- Witness for claim C3 as amended. -/
theorem claim_C3_witness :
    translate_to_bash none "list files" .connectionError =
      .error (.apiAuthenticationError "API key not found. Please set the PREPLIXITY_API_KEY environment variable.") ∧
    networkCalled none "list files" = false :=
  claim_C3_missing_credential none "list files" .connectionError (by decide) (by decide)

/-- Claim C4 counterexample: all three transport faults reach the caller as
the same exception class — the base TranslationError — so a caller cannot
distinguish timeout from connectivity from generic failure by type alone. -/
theorem claim_C4_counterexample :
    raisedClass (translate_to_bash (some "k") "q" .timeout) = some .translationError ∧
    raisedClass (translate_to_bash (some "k") "q" .connectionError) = some .translationError ∧
    raisedClass (translate_to_bash (some "k") "q" (.requestException "boom")) = some .translationError :=
  ⟨rfl, rfl, rfl⟩

/-- Claim C4 as amended: each transport fault is caught at the call boundary
and re-raised as the base TranslationError with a cause-specific message
(timeout, connection, generic request failure), so causes are
distinguishable only by message text, not by exception type. -/
theorem claim_C4_transport_faults (key : Option String) (q : String)
    (hk : optStrFalsy key = false) (hq : pyStrFalsy (pyStrip q) = false) :
    translate_to_bash key q .timeout = .error (.translationError "API request timed out") ∧
    translate_to_bash key q .connectionError = .error (.translationError "Could not connect to the API server") ∧
    (∀ m, translate_to_bash key q (.requestException m) =
      .error (.translationError ("API request failed: " ++ m))) := by
  refine ⟨?_, ?_, ?_⟩ <;> simp [translate_to_bash, hq, hk]

/-- Witness for claim C4 as amended. -/
theorem claim_C4_witness :
    translate_to_bash (some "k") "list files" .timeout =
      .error (.translationError "API request timed out") ∧
    translate_to_bash (some "k") "list files" .connectionError =
      .error (.translationError "Could not connect to the API server") ∧
    (∀ m, translate_to_bash (some "k") "list files" (.requestException m) =
      .error (.translationError ("API request failed: " ++ m))) :=
  claim_C4_transport_faults (some "k") "list files" (by decide) (by decide)

/-- Claim C5 counterexample: the InvalidInput rejection raises the builtin
ValueError, which does not derive from TranslationError, so a caller
catching the base translation-failure kind misses it. -/
theorem claim_C5_counterexample :
    translate_to_bash (some "secret") "" .connectionError =
      .error (.valueError "Query must be a non-empty string") ∧
    isSubclassOf .valueError .translationError = false :=
  ⟨rfl, rfl⟩

/-- Claim C5 as amended: the API failure kinds (APIAuthenticationError,
APIRateLimitError) derive from the single base TranslationError, and every
error the call raises is either that base-derived taxonomy or the builtin
ValueError of the input check — which is raised before any other work
(before even the credential check) for an empty or whitespace-only query,
but sits outside the taxonomy. -/
theorem claim_C5_error_taxonomy :
    isSubclassOf .apiAuthenticationError .translationError = true ∧
    isSubclassOf .apiRateLimitError .translationError = true ∧
    isSubclassOf .translationError .translationError = true ∧
    isSubclassOf .valueError .translationError = false ∧
    (∀ (key : Option String) (q : String) (net : NetOutcome),
      pyStrFalsy (pyStrip q) = true →
      translate_to_bash key q net = .error (.valueError "Query must be a non-empty string")) ∧
    (∀ (key : Option String) (q : String) (net : NetOutcome) (e : PyExc),
      translate_to_bash key q net = .error e →
      e.cls = .valueError ∨ isSubclassOf e.cls .translationError = true) := by
  refine ⟨rfl, rfl, rfl, rfl, ?_, ?_⟩
  · intro key q net hq
    simp [translate_to_bash, hq]
  · intro key q net e h
    simp only [translate_to_bash] at h
    split at h
    · have he : e = .valueError "Query must be a non-empty string" := by
        simpa using h.symm
      subst he
      exact Or.inl rfl
    · split at h
      · have he : e = .apiAuthenticationError "API key not found. Please set the PREPLIXITY_API_KEY environment variable." := by
          simpa using h.symm
        subst he
        exact Or.inr rfl
      · cases net with
        | timeout =>
          have he : e = .translationError "API request timed out" := by simpa using h.symm
          subst he
          exact Or.inr rfl
        | connectionError =>
          have he : e = .translationError "Could not connect to the API server" := by
            simpa using h.symm
          subst he
          exact Or.inr rfl
        | requestException m =>
          have he : e = .translationError ("API request failed: " ++ m) := by
            simpa using h.symm
          subst he
          exact Or.inr rfl
        | success resp =>
          rcases hpr : processResponse resp with e2 | c
          · simp only [hpr] at h
            have he : e = .translationError ("Translation failed: " ++ e2.msg) := by
              simpa using h.symm
            subst he
            exact Or.inr rfl
          · simp only [hpr] at h
            simp at h

/-- Witness for claim C5 as amended, at a whitespace-only query. -/
theorem claim_C5_witness :
    translate_to_bash (some "k2") " " .timeout =
      .error (.valueError "Query must be a non-empty string") :=
  claim_C5_error_taxonomy.2.2.2.2.1 (some "k2") " " .timeout (by decide)

/-- A string containing "rm -rf /*" also contains "rm -rf /". -/
theorem contains_star_implies (s : String) (h : strContains s "rm -rf /*" = true) :
    strContains s "rm -rf /" = true := by
  have h2 : (splitFirst (("rm -rf /" : String).data ++ ['*']) s.data).isSome = true := h
  exact splitFirst_extend s.data ("rm -rf /" : String).data ['*'] h2

/-- The three-pattern deny-list check coincides with the two-pattern check on
every string. -/
theorem dangerous_eq_two (s : String) :
    dangerous s = (strContains s "rm -rf /" || strContains s "> /dev/sda") := by
  simp only [dangerous, dangerous_patterns, List.any_cons, List.any_nil, Bool.or_false]
  cases h2 : strContains s "rm -rf /*"
  · rw [Bool.false_or]
  · rw [contains_star_implies s h2]
    simp

/-- The two-pattern check named by claim C10, written from the claim's words
for comparison with the source's `dangerous`. -/
def claimTwoPatternCheck (command : String) : Bool :=
  strContains command "rm -rf /" || strContains command "> /dev/sda"

/-- Claim C10 counterexample: a command containing both "rm -rf /" and
"> /dev/sda" is rejected by the extractor's filter and contains
"> /dev/sda", yet the formatter rejects it too — so the formatter does not
accept every extractor-rejected command containing "> /dev/sda". -/
theorem claim_C10_counterexample :
    dangerous "rm -rf / > /dev/sda" = true ∧
    strContains "rm -rf / > /dev/sda" "> /dev/sda" = true ∧
    format_command "rm -rf / > /dev/sda" =
      .error (.valueError "Potentially dangerous command detected") :=
  ⟨rfl, rfl, rfl⟩

/-- Claim C10 as amended: the three-pattern deny-list check is extensionally
equal to the two-pattern check on every string; and among stripped commands
the extractor's filter rejects, the formatter accepts exactly those that
contain "> /dev/sda" but not "rm -rf /". -/
theorem claim_C10_deny_redundancy :
    (∀ s : String, dangerous s = claimTwoPatternCheck s) ∧
    (∀ cmd : String, pyStrip cmd = cmd →
      ((dangerous cmd = true ∧ format_command cmd = .ok cmd) ↔
        (strContains cmd "> /dev/sda" = true ∧ strContains cmd "rm -rf /" = false))) := by
  constructor
  · intro s
    exact dangerous_eq_two s
  · intro cmd htrim
    constructor
    · rintro ⟨hd, hf⟩
      simp only [format_command, htrim] at hf
      cases hb : (strContains cmd "rm -rf /" || strContains cmd "rm -rf /*") with
      | true =>
        rw [hb] at hf
        simp at hf
      | false =>
        rw [Bool.or_eq_false_iff] at hb
        rw [dangerous_eq_two, hb.1, Bool.false_or] at hd
        exact ⟨hd, hb.1⟩
    · rintro ⟨hsda, h1⟩
      have h2 : strContains cmd "rm -rf /*" = false := by
        cases hc : strContains cmd "rm -rf /*"
        · rfl
        · rw [contains_star_implies cmd hc] at h1
          cases h1
      constructor
      · rw [dangerous_eq_two, h1, hsda]
        rfl
      · simp [format_command, htrim, h1, h2]

/-- Witness for claim C10 as amended, at a stripped command containing only
the raw-device pattern. -/
theorem claim_C10_witness :
    (dangerous "echo hi > /dev/sda" = true ∧
      format_command "echo hi > /dev/sda" = .ok "echo hi > /dev/sda") ↔
    (strContains "echo hi > /dev/sda" "> /dev/sda" = true ∧
      strContains "echo hi > /dev/sda" "rm -rf /" = false) :=
  claim_C10_deny_redundancy.2 "echo hi > /dev/sda" (by rfl)
